import Mathlib

/-!
Verification development for the Memory-Bot repository.

The Python sources are shallowly embedded as executable Lean definitions:

* `src/src/utils/models.py` — the pydantic data model becomes plain Lean
  structures.  Python `str` is `String`, `Optional[T]` is `Option T`,
  `datetime` is a naive `Datetime` record rendered by `isoformat`/`strftime`,
  `float` is `ℚ`, UUIDs are carried as their canonical strings, and
  `Dict[str, Any]` metadata is an insertion-ordered association list over a
  closed value type `MetaVal`.
* `src/src/components/memory_client.py` — each client operation becomes a
  pure function from the outcome of its single HTTP attempt
  (`HttpAttempt`: a response with status/body/parse outcome, or a transport
  fault) to `Except MemoryAPIError result`.  The `try/except` ladder of the
  source (HTTPStatusError / pydantic ValidationError / bare Exception) is
  mirrored by the case analysis; totality of the Lean function embeds the
  fact that `except Exception` catches every escaping exception and rewraps
  it as `MemoryAPIError`.
* `src/src/components/cmd_handlers.py` — the dispatcher's memory-item
  construction, media-selection loop and result formatting become pure
  functions over an embedded Telegram message record; the object-storage
  call is abstracted as its outcome (`StoreOutcome`).

Python truthiness is modelled where the source relies on it (`or` on
optional strings, `if filters:`, `if content_types:`, empty photo lists).
-/

set_option maxHeartbeats 1000000
set_option maxRecDepth 10000

/-- Zero-padded two-digit decimal rendering (Python `%02d` style). -/
def pad2 (n : Nat) : String := if n < 10 then "0" ++ toString n else toString n

/-- Zero-padded four-digit decimal rendering (Python `%Y` style). -/
def pad4 (n : Nat) : String :=
  if n < 10 then "000" ++ toString n
  else if n < 100 then "00" ++ toString n
  else if n < 1000 then "0" ++ toString n
  else toString n

/-- Naive `datetime.datetime` (no microseconds, no timezone offset). -/
structure Datetime where
  year : Nat
  month : Nat
  day : Nat
  hour : Nat
  minute : Nat
  second : Nat
deriving DecidableEq, Repr

/-- Python `datetime.isoformat()` for a naive second-resolution datetime. -/
def Datetime.isoformat (d : Datetime) : String :=
  pad4 d.year ++ "-" ++ pad2 d.month ++ "-" ++ pad2 d.day ++ "T" ++
    pad2 d.hour ++ ":" ++ pad2 d.minute ++ ":" ++ pad2 d.second

/-- Python `datetime.strftime("%Y-%m-%d %H:%M")`. -/
def Datetime.strftimeShort (d : Datetime) : String :=
  pad4 d.year ++ "-" ++ pad2 d.month ++ "-" ++ pad2 d.day ++ " " ++
    pad2 d.hour ++ ":" ++ pad2 d.minute

/-- Python `a or b` on two optional strings: `a` unless it is `None` or
empty, else `b`. -/
def pyOrOpt (a b : Option String) : Option String :=
  match a with
  | some s => if s = "" then b else some s
  | none => b

/-- Python `a or b or d` where `d` is a non-empty literal default. -/
def pyOrStr2 (a b : Option String) (d : String) : String :=
  match pyOrOpt a b with
  | some s => if s = "" then d else s
  | none => d

/-- Python `a or d` for an optional string with a string default
(`d.file_name or f"document_{d.file_id}"`). -/
def pyOrStr (a : Option String) (d : String) : String :=
  match a with
  | some s => if s = "" then d else s
  | none => d

/-- Closed value type for the dynamic metadata dictionaries the dispatcher
produces (string / integer / null values). -/
inductive MetaVal where
  | str (s : String)
  | int (n : Int)
  | nullV
deriving DecidableEq, Repr

/-- An optional string rendered into a metadata value (None becomes null). -/
def MetaVal.ofOpt : Option String → MetaVal
  | some s => .str s
  | none => .nullV

/-- JSON string escaping for the quote and backslash characters, as
`json.dumps` performs on plain text keys and values. -/
def jsonEscape (s : String) : String :=
  String.mk (s.toList.foldr
    (fun c acc => if c = '"' || c = '\\' then '\\' :: c :: acc else c :: acc) [])

/-- Python `json.dumps` on a string-valued dict (default separators). -/
def jsonDumpsStrDict (kvs : List (String × String)) : String :=
  "\x7b" ++ String.intercalate ", "
    (kvs.map (fun kv => "\"" ++ jsonEscape kv.1 ++ "\": \"" ++ jsonEscape kv.2 ++ "\"")) ++
    "\x7d"

/-! ## Data model (`src/src/utils/models.py`) -/

/-- `MemoryItemRaw`: a not-yet-persisted capture request. -/
structure MemoryItemRaw where
  content_type : String
  text_content : Option String
  data_uri : Option String
  event_timestamp : Datetime
  meta : Option (List (String × MetaVal))
  reply_to_id : Option String
deriving DecidableEq, Repr

/-- `MemoryItem`: the persisted record returned by the API. -/
structure MemoryItem where
  id : String
  parent_id : Option String
  content_type : String
  text_content : Option String
  analyzed_text : Option String
  data_uri : Option String
  embedding : Option (List ℚ)
  embedding_model_version : Option String
  meta : Option (List (String × MetaVal))
  event_timestamp : Datetime
  created_at : Datetime
  updated_at : Datetime
deriving DecidableEq, Repr

/-- `MemoryItemResponse`: search result with optional relevance score. -/
structure MemoryItemResponse where
  item : MemoryItem
  score : Option ℚ
deriving DecidableEq, Repr

/-- `RetrievalResponse`: query plus ranked results. -/
structure RetrievalResponse where
  query : String
  results : List MemoryItemResponse
deriving DecidableEq, Repr

/-- `IngestionResponse`: ingestion status plus generated item id. -/
structure IngestionResponse where
  status : String
  item_id : String
deriving DecidableEq, Repr

/-- `TaskStatus`: background-task record. -/
structure TaskStatus where
  task_id : String
  task_type : String
  status : String
  source_item_id : String
  created_at : Datetime
  started_at : Option Datetime
  completed_at : Option Datetime
  error_message : Option String
deriving DecidableEq, Repr

/-- `Relationship`: directed edge between two items. -/
structure Relationship where
  id : String
  source_node_id : String
  target_node_id : String
  relationship_type : String
  created_at : Datetime
deriving DecidableEq, Repr

/-- `RelatedItemResult`: a related item with its relationship. -/
structure RelatedItemResult where
  item : MemoryItem
  relationship : Relationship
deriving DecidableEq, Repr

/-- `RelatedItemsResponse`: origin id plus related items. -/
structure RelatedItemsResponse where
  item_id : String
  related_items : List RelatedItemResult
deriving DecidableEq, Repr

/-! ## Memory API client (`src/src/components/memory_client.py`) -/

/-- `MemoryAPIError`: the single error type the client raises; it carries
only a human-readable message. -/
structure MemoryAPIError where
  message : String
deriving DecidableEq, Repr

/-- Outcome of decoding and validating a response body: `response.json()`
followed by pydantic `model_validate`.  `validationError` is a pydantic
`ValidationError`; `otherError` is any other exception raised while reading
the body (e.g. a JSON decode failure). -/
inductive ParseOutcome (α : Type) where
  | ok (value : α)
  | validationError (errMsg : String)
  | otherError (errMsg : String)
deriving DecidableEq, Repr

/-- Outcome of one httpx request: either a response (status code, body
text, and what parsing that body would yield), or a transport-level
exception (timeout, DNS failure, connection reset, ...). -/
inductive HttpAttempt (α : Type) where
  | response (status : Nat) (text : String) (parsed : ParseOutcome α)
  | transportError (errMsg : String)
deriving DecidableEq, Repr

/-- httpx `response.raise_for_status()` raises exactly when the status is
not 2xx. -/
def is2xx (status : Nat) : Prop := 200 ≤ status ∧ status < 300

instance (status : Nat) : Decidable (is2xx status) := by
  unfold is2xx; infer_instance

/-- Query-parameter values as placed in the `params` dict (httpx encodes
strings, ints and booleans). -/
inductive ParamValue where
  | str (s : String)
  | int (n : Int)
  | bool (b : Bool)
deriving DecidableEq, Repr

/-- A GET operation observed as the query parameters it sends together
with the result it produces. -/
structure RequestTrace (β : Type) where
  params : List (String × ParamValue)
  result : Except MemoryAPIError β

/-- `MemoryAPIClient.ingest`: POST the serialized item; non-2xx wraps the
server body text, validation failure wraps the pydantic message, any other
exception wraps a generic message.  Totality of the function embeds the
`except Exception` catch-all: no other exception type escapes. -/
def ingest (_item : MemoryItemRaw) (attempt : HttpAttempt IngestionResponse) :
    Except MemoryAPIError IngestionResponse :=
  match attempt with
  | .transportError m => .error ⟨"Ingestion failed: " ++ m⟩
  | .response status text parsed =>
    if is2xx status then
      match parsed with
      | .ok v => .ok v
      | .validationError m => .error ⟨"Invalid response format: " ++ m⟩
      | .otherError m => .error ⟨"Ingestion failed: " ++ m⟩
    else
      .error ⟨"Failed to ingest item: " ++ text⟩

/-- The query-parameter dict built by `MemoryAPIClient.retrieve`:
`query`/`top_k`/`include_context`/`enable_reranking` always; `filters` as a
JSON string if truthy (non-`None` and non-empty); `start_date`/`end_date`
as `isoformat()` strings if supplied (a datetime is always truthy);
`content_types` comma-joined if truthy. -/
def retrieveParams (query : String) (top_k : Int)
    (filters : Option (List (String × String)))
    (start_date end_date : Option Datetime)
    (content_types : Option (List String))
    (include_context enable_reranking : Bool) : List (String × ParamValue) :=
  let params := [("query", ParamValue.str query), ("top_k", ParamValue.int top_k),
                 ("include_context", ParamValue.bool include_context),
                 ("enable_reranking", ParamValue.bool enable_reranking)]
  let params := match filters with
    | some (kv :: kvs) => params ++ [("filters", ParamValue.str (jsonDumpsStrDict (kv :: kvs)))]
    | _ => params
  let params := match start_date with
    | some d => params ++ [("start_date", ParamValue.str d.isoformat)]
    | none => params
  let params := match end_date with
    | some d => params ++ [("end_date", ParamValue.str d.isoformat)]
    | none => params
  let params := match content_types with
    | some (c :: cs) => params ++ [("content_types", ParamValue.str (String.intercalate "," (c :: cs)))]
    | _ => params
  params

/-- The `try/except` ladder of `MemoryAPIClient.retrieve` applied to the
outcome of its single GET attempt. -/
def retrieveResult (attempt : HttpAttempt RetrievalResponse) :
    Except MemoryAPIError RetrievalResponse :=
  match attempt with
  | .transportError m => .error ⟨"Retrieval failed: " ++ m⟩
  | .response status text parsed =>
    if is2xx status then
      match parsed with
      | .ok v => .ok v
      | .validationError m => .error ⟨"Invalid response format: " ++ m⟩
      | .otherError m => .error ⟨"Retrieval failed: " ++ m⟩
    else
      .error ⟨"Failed to retrieve items: " ++ text⟩

/-- `MemoryAPIClient.retrieve`: the sent parameters plus the wrapped
result of the single GET attempt. -/
def retrieve (query : String) (top_k : Int)
    (filters : Option (List (String × String)))
    (start_date end_date : Option Datetime)
    (content_types : Option (List String))
    (include_context enable_reranking : Bool)
    (attempt : HttpAttempt RetrievalResponse) : RequestTrace RetrievalResponse :=
  { params := retrieveParams query top_k filters start_date end_date content_types
      include_context enable_reranking,
    result := retrieveResult attempt }

/-- `MemoryAPIClient.get_item`: GET by id; a 404 is distinguished as
`"Item not found: <id>"`, other non-2xx wrap the server body text. -/
def get_item (item_id : String) (attempt : HttpAttempt MemoryItem) :
    Except MemoryAPIError MemoryItem :=
  match attempt with
  | .transportError m => .error ⟨"Get item failed: " ++ m⟩
  | .response status text parsed =>
    if is2xx status then
      match parsed with
      | .ok v => .ok v
      | .validationError m => .error ⟨"Invalid response format: " ++ m⟩
      | .otherError m => .error ⟨"Get item failed: " ++ m⟩
    else if status = 404 then
      .error ⟨"Item not found: " ++ item_id⟩
    else
      .error ⟨"Failed to get item: " ++ text⟩

/-- The `try/except` ladder of `MemoryAPIClient.get_related_items`. -/
def relatedResult (item_id : String) (attempt : HttpAttempt RelatedItemsResponse) :
    Except MemoryAPIError RelatedItemsResponse :=
  match attempt with
  | .transportError m => .error ⟨"Get related items failed: " ++ m⟩
  | .response status text parsed =>
    if is2xx status then
      match parsed with
      | .ok v => .ok v
      | .validationError m => .error ⟨"Invalid response format: " ++ m⟩
      | .otherError m => .error ⟨"Get related items failed: " ++ m⟩
    else if status = 404 then
      .error ⟨"Item not found: " ++ item_id⟩
    else
      .error ⟨"Failed to get related items: " ++ text⟩

/-- `MemoryAPIClient.get_related_items`: GET `<item>/related` with an
optional comma-joined `relationship_types` parameter; same 404 policy as
`get_item`. -/
def get_related_items (item_id : String) (relationship_types : Option (List String))
    (attempt : HttpAttempt RelatedItemsResponse) : RequestTrace RelatedItemsResponse :=
  { params :=
      match relationship_types with
      | some (r :: rs) => [("relationship_types", ParamValue.str (String.intercalate "," (r :: rs)))]
      | _ => [],
    result := relatedResult item_id attempt }

/-- `MemoryAPIClient.get_task_status`: GET by task id; a 404 is
distinguished as `"Task not found: <id>"`. -/
def get_task_status (task_id : String) (attempt : HttpAttempt TaskStatus) :
    Except MemoryAPIError TaskStatus :=
  match attempt with
  | .transportError m => .error ⟨"Get task status failed: " ++ m⟩
  | .response status text parsed =>
    if is2xx status then
      match parsed with
      | .ok v => .ok v
      | .validationError m => .error ⟨"Invalid response format: " ++ m⟩
      | .otherError m => .error ⟨"Get task status failed: " ++ m⟩
    else if status = 404 then
      .error ⟨"Task not found: " ++ task_id⟩
    else
      .error ⟨"Failed to get task status: " ++ text⟩

/-- Outcome of the single GET issued by `health_check`: a response with
some status code, or any exception during the request. -/
inductive HealthOutcome where
  | response (status : Nat)
  | exception (errMsg : String)
deriving DecidableEq, Repr

/-- `MemoryAPIClient.health_check`: `status_code == 200`, with every
exception swallowed into `false`. -/
def health_check (outcome : HealthOutcome) : Bool :=
  match outcome with
  | .response status => status == 200
  | .exception _ => false

/-! ## Command dispatcher (`src/src/components/cmd_handlers.py`) -/

/-- A Telegram media object as far as the dispatcher inspects it: its
`file_id` and (for documents and audio files) an optional `file_name`. -/
structure TgFile where
  file_id : String
  file_name : Option String
deriving DecidableEq, Repr

/-- The chat a message belongs to (`message.chat`). -/
structure Chat where
  id : Int
  chat_type : String
  title : Option String
deriving DecidableEq, Repr

/-- The sender of a message (`message.from_user`). -/
structure User where
  id : Int
  username : Option String
  first_name : String
  last_name : Option String
deriving DecidableEq, Repr

/-- The fields of a Telegram `Message` that the dispatcher reads.  `photo`
is a (possibly empty) list of sizes, as in the Telegram API; the other
attachment attributes are single optional objects. -/
structure MsgContent where
  message_id : Int
  chat : Chat
  from_user : Option User
  date : Datetime
  text : Option String
  caption : Option String
  photo : List TgFile
  voice : Option TgFile
  video : Option TgFile
  document : Option TgFile
  audio : Option TgFile
  video_note : Option TgFile
  sticker : Option TgFile
deriving DecidableEq, Repr

/-- An inbound message together with the message it replies to, if any. -/
structure Message where
  content : MsgContent
  reply_to_message : Option MsgContent
deriving DecidableEq, Repr

/-- The seven attachment attributes the dispatcher's `mapping` list
iterates, in source order. -/
inductive AttachKind where
  | photo
  | voice
  | video
  | document
  | audio
  | video_note
  | sticker
deriving DecidableEq, Repr

/-- The truthy attachment object selected for a kind:
`getattr(mem_message, attr_name, None)` combined with the
`raw_obj[-1] if attr_name == "photo" else raw_obj` selection.  An empty
photo list is falsy, so `getLast?` models both the truthiness test and the
`[-1]` indexing at once. -/
def attachOf : AttachKind → MsgContent → Option TgFile
  | .photo, m => m.photo.getLast?
  | .voice, m => m.voice
  | .video, m => m.video
  | .document, m => m.document
  | .audio, m => m.audio
  | .video_note, m => m.video_note
  | .sticker, m => m.sticker

/-- The `content_type` string paired with each attachment kind in the
source's `mapping` list. -/
def mediaTypeOf : AttachKind → String
  | .photo => "image"
  | .voice => "audio"
  | .video => "video"
  | .document => "document"
  | .audio => "audio"
  | .video_note => "video"
  | .sticker => "image"

/-- The filename rule paired with each attachment kind in the source's
`mapping` list (Python `or` truthiness on `file_name`). -/
def filenameOf : AttachKind → TgFile → String
  | .photo, p => "photo_" ++ p.file_id ++ ".jpg"
  | .voice, v => "voice_" ++ v.file_id ++ ".ogg"
  | .video, v => "video_" ++ v.file_id ++ ".mp4"
  | .document, d => pyOrStr d.file_name ("document_" ++ d.file_id)
  | .audio, a => pyOrStr a.file_name ("audio_" ++ a.file_id ++ ".mp3")
  | .video_note, vn => "video_note_" ++ vn.file_id ++ ".mp4"
  | .sticker, s => "sticker_" ++ s.file_id ++ ".webp"

/-- The mutable locals of the media-selection loop.  `media_type` is the
loop's tuple-unpacking variable: it is reassigned on every iteration,
matched or not, which is why it is tracked separately from
`content_type`. -/
structure LoopState where
  content_type : String
  media_obj : Option TgFile
  media_type : Option String
  file_name : Option String
deriving DecidableEq, Repr

/-- Locals before the loop: `content_type = "text"`, the rest `None`. -/
def initLoopState : LoopState := ⟨"text", none, none, none⟩

/-- One iteration of `for attr_name, media_type, get_filename in mapping`:
the tuple unpacking rebinds `media_type` unconditionally; the walrus match
overwrites `content_type`, `media_obj` and `file_name` only when the
attribute is truthy. -/
def loopStep (m : MsgContent) (st : LoopState) (k : AttachKind) : LoopState :=
  match attachOf k m with
  | some obj =>
    { content_type := mediaTypeOf k, media_obj := some obj,
      media_type := some (mediaTypeOf k), file_name := some (filenameOf k obj) }
  | none => { st with media_type := some (mediaTypeOf k) }

/-- The source's fixed ordered `mapping` list. -/
def mapping : List AttachKind :=
  [.photo, .voice, .video, .document, .audio, .video_note, .sticker]

/-- The state of the media-selection locals after the whole loop. -/
def mediaSelect (m : MsgContent) : LoopState :=
  mapping.foldl (loopStep m) initLoopState

/-- Outcome of `_store_telegram_file` (download from Telegram plus MinIO
upload): the stored URI, or any exception raised along the way. -/
inductive StoreOutcome where
  | ok (uri : String)
  | failure (errMsg : String)
deriving DecidableEq, Repr

/-- `BotCommandHandler._extract_message_meta`: the base dict, then the
user fields if `from_user` is truthy, then `chat_title` if the title is a
truthy (non-`None`, non-empty) string; dict insertion order. -/
def extract_message_meta (m : MsgContent) : List (String × MetaVal) :=
  let base := [("source", MetaVal.str "telegram"),
               ("message_id", MetaVal.int m.message_id),
               ("chat_id", MetaVal.int m.chat.id),
               ("chat_type", MetaVal.str m.chat.chat_type)]
  let withUser := match m.from_user with
    | some u => base ++ [("user_id", MetaVal.int u.id),
                         ("username", MetaVal.ofOpt u.username),
                         ("first_name", MetaVal.str u.first_name),
                         ("last_name", MetaVal.ofOpt u.last_name)]
    | none => base
  match m.chat.title with
  | some t => if t = "" then withUser else withUser ++ [("chat_title", MetaVal.str t)]
  | none => withUser

/-- `BotCommandHandler._create_msg_memoryitem`: picks the replied-to
message when present, runs the media-selection loop, obtains a storage URI
for non-text content (falling back to the synthetic
`telegram_<media_type>:<file_id>` reference when storage fails), and
builds the raw item.  The source's final statement unconditionally returns
a constructed `MemoryItemRaw`: there is no `return None` path, so the
declared `Optional` result is always `some`. -/
def create_msg_memoryitem (message : Message) (store : StoreOutcome) :
    Option MemoryItemRaw :=
  let mem := message.reply_to_message.getD message.content
  let text_content := pyOrOpt mem.text mem.caption
  let st := mediaSelect mem
  let data_uri : Option String :=
    if st.content_type = "text" then none
    else
      match store with
      | .ok uri => some uri
      | .failure _ =>
        some ("telegram_" ++ st.media_type.getD "" ++ ":" ++
          (st.media_obj.map TgFile.file_id).getD "")
  some { content_type := st.content_type, text_content := text_content,
         data_uri := data_uri, event_timestamp := mem.date,
         meta := some (extract_message_meta mem), reply_to_id := none }

/-- What `handle_remember_cmd` does with an inbound message before any
reply formatting: abort with the "No content to remember" notice when the
constructed item is falsy (`None`), otherwise ingest the item. -/
inductive RememberAction where
  | abortedNotice
  | ingested (item : MemoryItemRaw)
deriving DecidableEq, Repr

/-- `BotCommandHandler.handle_remember_cmd`'s dispatch decision:
`if not memory_item:` reply the notice and return, else call
`self._memory_client.ingest(memory_item)`.  A pydantic model defines no
`__bool__`/`__len__`, so `not memory_item` is true exactly when it is
`None`. -/
def handle_remember_cmd (message : Message) (store : StoreOutcome) : RememberAction :=
  match create_msg_memoryitem message store with
  | none => .abortedNotice
  | some item => .ingested item

/-! ## Search-result formatting (`BotCommandHandler._fmt_search_results`) -/

/-- Python `len` on a string counts code points. -/
def pyLen (s : String) : Nat := s.toList.length

/-- Python slicing `s[:n]` by code points. -/
def pyTake (n : Nat) (s : String) : String := String.mk (s.toList.take n)

/-- The truncation step of `_fmt_search_results`:
`if len(content) > 300: content = content[:297] + "..."`. -/
def truncateContent (s : String) : String :=
  if pyLen s > 300 then pyTake 297 s ++ "..." else s

/-- Python `content.split("\n")` on code-point lists: splitting on every
newline, keeping empty segments (never returns an empty list). -/
def splitNl : List Char → List (List Char)
  | [] => [[]]
  | c :: rest =>
    let r := splitNl rest
    if c = '\n' then [] :: r
    else
      match r with
      | [] => [[c]]
      | x :: xs => (c :: x) :: xs

/-- Python `"\n".join(...)` on code-point lists. -/
def joinNl : List (List Char) → List Char
  | [] => []
  | [x] => x
  | x :: y :: rest => x ++ '\n' :: joinNl (y :: rest)

/-- The block-quote step of `_fmt_search_results`:
`"\n".join([f">{line}" for line in content.split("\n")])`. -/
def quoteL (l : List Char) : List Char :=
  joinNl ((splitNl l).map (fun x => '>' :: x))

/-- `quoteL` lifted to strings. -/
def quoteBlock (s : String) : String := String.mk (quoteL s.toList)

/-- The characters `telegram.helpers.escape_markdown(version=2)` escapes. -/
def mdv2Special : List Char := "\\_*[]()~`>#+-=|\x7b\x7d.!".toList

/-- `telegram.helpers.escape_markdown(text, version=2)`: prefix every
special character with a backslash. -/
def escapeMarkdownV2 (s : String) : String :=
  String.mk (s.toList.foldr
    (fun c acc => if c ∈ mdv2Special then '\\' :: c :: acc else c :: acc) [])

/-- Round-half-to-even to an integer, as Python float formatting does at
the rounding digit. -/
def roundHalfEven (q : ℚ) : Int :=
  let f := ⌊q⌋
  let r := q - f
  if r < 1/2 then f
  else if 1/2 < r then f + 1
  else if f % 2 = 0 then f else f + 1

/-- Python `f"{score:.2f}"` on a rational score: round to hundredths
half-to-even and render with exactly two digits after the point. -/
def format2f (q : ℚ) : String :=
  let n := roundHalfEven (q * 100)
  let sign := if n < 0 then "-" else ""
  let a := n.natAbs
  sign ++ toString (a / 100) ++ "." ++ pad2 (a % 100)

/-- `item.text_content or item.analyzed_text or "[No text content]"`. -/
def displayContent (item : MemoryItem) : String :=
  pyOrStr2 item.text_content item.analyzed_text "[No text content]"

/-- One iteration of the result loop in `_fmt_search_results`, at 1-based
index `i`.  `f"{score:.2f}"` raises a `TypeError` when the score is
`None`, so the rendered entry exists exactly when the score is present. -/
def fmt_result_entry (i : Nat) (r : MemoryItemResponse) : Option String :=
  r.score.map (fun sc =>
    let content := quoteBlock (escapeMarkdownV2 (truncateContent (displayContent r.item)))
    let score := escapeMarkdownV2 (format2f sc)
    let timestamp := escapeMarkdownV2 r.item.event_timestamp.strftimeShort
    "*" ++ toString i ++ "\\. \\(Score: " ++ score ++ "\\)*\n" ++ content ++
      "\n\n🕒 " ++ timestamp ++ "\n🆔 `" ++ r.item.id ++ "`\n\n")

/-- The header line of `_fmt_search_results`. -/
def fmtSearchHeader (query : String) : String :=
  "🔍 *Search Results for:* `" ++ escapeMarkdownV2 query ++ "`\n\n"

/-- `BotCommandHandler._fmt_search_results`: the header followed by one
entry per result, enumerated from 1.  `none` models the `TypeError`
escaping when some result lacks a score. -/
def fmt_search_results (response : RetrievalResponse) (query : String) :
    Option String := do
  let entries ← (response.results.enumFrom 1).mapM (fun p => fmt_result_entry p.1 p.2)
  pure (fmtSearchHeader query ++ String.join entries)

/-! ## Concrete inputs used by witnesses and counterexamples -/

/-- A fixed event timestamp. -/
def d0 : Datetime := ⟨2024, 1, 1, 12, 0, 0⟩

/-- A private chat without a title. -/
def chat0 : Chat := ⟨10, "private", none⟩

/-- A message carrying no text, no caption and no attachment. -/
def emptyContent : MsgContent :=
  { message_id := 1, chat := chat0, from_user := none, date := d0,
    text := none, caption := none, photo := [], voice := none, video := none,
    document := none, audio := none, video_note := none, sticker := none }

/-- A `/remember` message with nothing to remember. -/
def noContentMsg : Message := ⟨emptyContent, none⟩

/-- A voice note with file id `v1`. -/
def voiceFile : TgFile := ⟨"v1", none⟩

/-- A message whose only attachment is a voice note. -/
def voiceOnlyMsg : Message := ⟨{ emptyContent with voice := some voiceFile }, none⟩

/-- A message carrying both a photo and a voice note (two attachment
attributes at once). -/
def photoVoiceContent : MsgContent :=
  { emptyContent with photo := [⟨"p1", none⟩], voice := some voiceFile }

/-- A concrete ingestion-response value for witness instantiations. -/
def ingOk : IngestionResponse := ⟨"queued", "11111111-1111-1111-1111-111111111111"⟩

/-- A concrete raw item for witness instantiations. -/
def rawItem0 : MemoryItemRaw :=
  { content_type := "text", text_content := some "hello", data_uri := none,
    event_timestamp := d0, meta := none, reply_to_id := none }

/-- A concrete persisted item for witness instantiations. -/
def item0 : MemoryItem :=
  { id := "22222222-2222-2222-2222-222222222222", parent_id := none,
    content_type := "text", text_content := some "hello", analyzed_text := none,
    data_uri := none, embedding := none, embedding_model_version := none,
    meta := none, event_timestamp := d0, created_at := d0, updated_at := d0 }

/-- A 301-character body used to exercise the truncation branch. -/
def longBody : String := String.mk (List.replicate 301 'x')

/-! ## Helper lemmas -/

/-- String concatenation concatenates the underlying code-point lists. -/
theorem strToList_append (a b : String) : (a ++ b).toList = a.toList ++ b.toList :=
  String.data_append a b

/-- An infix of a list is an infix of any right extension. -/
theorem infix_extend_right {α} {l1 l2 : List α} (l3 : List α) (h : l1 <:+: l2) :
    l1 <:+: l2 ++ l3 := by
  obtain ⟨s, t, rfl⟩ := h
  exact ⟨s, t ++ l3, by simp⟩

/-- A list is an infix of anything it is appended onto from the left. -/
theorem infix_of_append_left {α} (pre l : List α) : l <:+: pre ++ l :=
  ⟨pre, [], by simp⟩

/-- `pyLen` is additive over concatenation. -/
theorem pyLen_append (a b : String) : pyLen (a ++ b) = pyLen a + pyLen b := by
  simp [pyLen, strToList_append]

/-- Taking at most the length leaves `pyTake` with exactly `n` characters. -/
theorem pyLen_pyTake (n : Nat) (s : String) (h : n ≤ pyLen s) :
    pyLen (pyTake n s) = n := by
  simp only [pyLen, pyTake] at *
  simpa using h

/-- `splitNl` never produces the empty list of segments. -/
theorem splitNl_ne_nil (l : List Char) : splitNl l ≠ [] := by
  cases l with
  | nil => simp [splitNl]
  | cons c rest =>
    simp only [splitNl]
    split
    · simp
    · split <;> simp

/-- No segment produced by `splitNl` contains a newline. -/
theorem splitNl_no_nl (l : List Char) : ∀ x ∈ splitNl l, '\n' ∉ x := by
  induction l with
  | nil =>
    intro x hx
    simp only [splitNl, List.mem_singleton] at hx
    subst hx; simp
  | cons c rest ih =>
    intro x hx
    simp only [splitNl] at hx
    by_cases hc : c = '\n'
    · rw [if_pos hc] at hx
      rcases List.mem_cons.mp hx with h | h
      · subst h; simp
      · exact ih x h
    · rw [if_neg hc] at hx
      cases hr : splitNl rest with
      | nil => exact absurd hr (splitNl_ne_nil rest)
      | cons y ys =>
        rw [hr] at hx
        rcases List.mem_cons.mp hx with h | h
        · subst h
          intro hmem
          rcases List.mem_cons.mp hmem with h1 | h1
          · exact hc h1.symm
          · exact ih y (hr ▸ List.mem_cons_self y ys) h1
        · exact ih x (hr ▸ List.mem_cons_of_mem y h)

/-- Splitting a newline-free list yields that single segment. -/
theorem splitNl_single {l : List Char} (h : '\n' ∉ l) : splitNl l = [l] := by
  induction l with
  | nil => simp [splitNl]
  | cons c rest ih =>
    have hc : c ≠ '\n' := fun hc => h (hc ▸ List.mem_cons_self c rest)
    have hrest : '\n' ∉ rest := fun hm => h (List.mem_cons_of_mem c hm)
    simp only [splitNl, if_neg hc, ih hrest]

/-- Splitting after a newline-free head segment peels it off. -/
theorem splitNl_append_nl {x : List Char} (h : '\n' ∉ x) (r : List Char) :
    splitNl (x ++ '\n' :: r) = x :: splitNl r := by
  induction x with
  | nil => simp [splitNl]
  | cons c cs ih =>
    have hc : c ≠ '\n' := fun hc => h (hc ▸ List.mem_cons_self c cs)
    have hcs : '\n' ∉ cs := fun hm => h (List.mem_cons_of_mem c hm)
    simp only [List.cons_append, splitNl, if_neg hc, List.append_eq, ih hcs]

/-- Splitting undoes joining on newline-free segments. -/
theorem splitNl_joinNl : ∀ xss : List (List Char), xss ≠ [] →
    (∀ x ∈ xss, '\n' ∉ x) → splitNl (joinNl xss) = xss
  | [], h, _ => absurd rfl h
  | [x], _, hx => by
    rw [joinNl, splitNl_single (hx x (by simp))]
  | x :: y :: rest, _, hx => by
    rw [joinNl, splitNl_append_nl (hx x (by simp)),
      splitNl_joinNl (y :: rest) (by simp)
        (fun z hz => hx z (List.mem_cons_of_mem x hz))]

/-- Block-quoting prefixes each line of the input with `>`. -/
theorem splitNl_quoteL (l : List Char) :
    splitNl (quoteL l) = (splitNl l).map (fun x => '>' :: x) := by
  apply splitNl_joinNl
  · simp only [ne_eq, List.map_eq_nil_iff]
    exact splitNl_ne_nil l
  · intro x hx
    rcases List.mem_map.mp hx with ⟨y, hy, rfl⟩
    intro hmem
    rcases List.mem_cons.mp hmem with h | h
    · exact absurd h (by decide)
    · exact splitNl_no_nl l y hy h

/-- `pad2` renders every value below 100 as exactly two digit characters. -/
theorem pad2_two_digits :
    ∀ m : Nat, m < 100 → (pad2 m).toList.length = 2 ∧
      ((pad2 m).toList.all Char.isDigit = true) := by decide

/-- The two not-found wordings differ for every id. -/
theorem task_wording_ne_item_wording (t : String) :
    "Task not found: " ++ t ≠ "Item not found: " ++ t := by
  intro h
  have hd := congrArg String.data h
  rw [String.data_append, String.data_append] at hd
  exact absurd (List.append_inj hd (by decide)).1 (by decide)

/-- `_create_msg_memoryitem` has no `return None` path: it always
produces an item. -/
theorem create_msg_memoryitem_isSome (msg : Message) (st : StoreOutcome) :
    (create_msg_memoryitem msg st).isSome := rfl

/-- Full characterization of the media-selection loop over any list of
kinds: the selection fields come from the last matching kind (or stay at
their initial values when nothing matches). -/
theorem foldl_loopStep_char (m : MsgContent) (ks : List AttachKind) (st : LoopState) :
    (match (ks.filter (fun k => (attachOf k m).isSome)).getLast? with
     | some k =>
        (ks.foldl (loopStep m) st).content_type = mediaTypeOf k ∧
        (ks.foldl (loopStep m) st).media_obj = attachOf k m ∧
        (ks.foldl (loopStep m) st).file_name = (attachOf k m).map (filenameOf k)
     | none =>
        (ks.foldl (loopStep m) st).content_type = st.content_type ∧
        (ks.foldl (loopStep m) st).media_obj = st.media_obj ∧
        (ks.foldl (loopStep m) st).file_name = st.file_name) := by
  induction ks using List.reverseRecOn with
  | nil => exact ⟨rfl, rfl, rfl⟩
  | append_singleton l k ih =>
    rw [List.foldl_append, List.filter_append]
    simp only [List.foldl_cons, List.foldl_nil]
    cases hk : attachOf k m with
    | some o =>
      have hf : List.filter (fun k => (attachOf k m).isSome) [k] = [k] := by
        simp [List.filter_cons, hk]
      rw [hf, List.getLast?_concat]
      simp [loopStep, hk]
    | none =>
      have hf : List.filter (fun k => (attachOf k m).isSome) [k] = [] := by
        simp [List.filter_cons, hk]
      rw [hf, List.append_nil]
      simp only [loopStep, hk]
      exact ih

/-! ## Claim theorems -/

/-- C3: `health_check` never raises (it is a total boolean function of
the request outcome); it returns `true` exactly when the HTTP response
status is 200, and `false` for any non-200 status and for any exception
(connection failure, timeout) during the request. -/
theorem C3_health_check_bool (o : HealthOutcome) :
    (health_check o = true ↔ o = HealthOutcome.response 200) ∧
    (∀ m, health_check (HealthOutcome.exception m) = false) := by
  constructor
  · cases o with
    | response s => simp [health_check]
    | exception m => simp [health_check]
  · intro m
    rfl

/-- C9: a 404 from `get_task_status` raises `MemoryAPIError` whose
message equals `"Task not found: <task_id>"` — worded with "Task", not
"Item" — and the message contains the substring `"not found"` and the
requested id. -/
theorem C9_task_not_found_404 (tid text : String) (parsed : ParseOutcome TaskStatus) :
    get_task_status tid (.response 404 text parsed) =
      .error ⟨"Task not found: " ++ tid⟩ ∧
    "not found".toList <:+: ("Task not found: " ++ tid).toList ∧
    tid.toList <:+: ("Task not found: " ++ tid).toList ∧
    "Task not found: " ++ tid ≠ "Item not found: " ++ tid := by
  refine ⟨rfl, ?_, ?_, task_wording_ne_item_wording tid⟩
  · rw [strToList_append]
    exact infix_extend_right _ (by decide)
  · rw [strToList_append]
    exact infix_of_append_left _ _

/-- C2: a 404 from `get_item` or `get_related_items` raises
`MemoryAPIError` whose message equals `"Item not found: <item_id>"`
(containing `"not found"` and the requested id), while any other non-2xx
status follows the generic wrapping that embeds the server body text. -/
theorem C2_item_not_found_404 (iid text : String) (p1 : ParseOutcome MemoryItem)
    (p2 : ParseOutcome RelatedItemsResponse) (rts : Option (List String)) :
    get_item iid (.response 404 text p1) = .error ⟨"Item not found: " ++ iid⟩ ∧
    (get_related_items iid rts (.response 404 text p2)).result =
      .error ⟨"Item not found: " ++ iid⟩ ∧
    "not found".toList <:+: ("Item not found: " ++ iid).toList ∧
    iid.toList <:+: ("Item not found: " ++ iid).toList ∧
    (∀ status, ¬ is2xx status → status ≠ 404 →
      get_item iid (.response status text p1) =
        .error ⟨"Failed to get item: " ++ text⟩ ∧
      (get_related_items iid rts (.response status text p2)).result =
        .error ⟨"Failed to get related items: " ++ text⟩) := by
  refine ⟨rfl, rfl, ?_, ?_, ?_⟩
  · rw [strToList_append]
    exact infix_extend_right _ (by decide)
  · rw [strToList_append]
    exact infix_of_append_left _ _
  · intro status h h404
    constructor
    · simp only [get_item]
      rw [if_neg h, if_neg h404]
    · change relatedResult iid (HttpAttempt.response status text p2) = _
      simp only [relatedResult]
      rw [if_neg h, if_neg h404]

/-- C2 witness: concrete instantiation at id `abc`, body `srv`,
status 404 and status 500. -/
theorem C2_item_not_found_404_witness :
    get_item "abc" (.response 404 "srv" (.otherError "x")) =
      .error ⟨"Item not found: " ++ "abc"⟩ ∧
    get_item "abc" (.response 500 "srv" (.otherError "x")) =
      .error ⟨"Failed to get item: " ++ "srv"⟩ :=
  ⟨(C2_item_not_found_404 "abc" "srv" (.otherError "x") (.otherError "y") none).1,
   ((C2_item_not_found_404 "abc" "srv" (.otherError "x") (.otherError "y")
      none).2.2.2.2 500 (by decide) (by decide)).1⟩

/-- C1 counterexample: the claim says every non-2xx status produces a
message containing the server body text, for all five operations; but a
404 from `get_item` is wrapped as `"Item not found: <id>"`, which does
not contain the body text `boom`. -/
theorem C1_counterexample_404_body_dropped :
    get_item "abc" (.response 404 "boom" (.otherError "x")) =
      .error ⟨"Item not found: abc"⟩ ∧
    ¬ ("boom".toList <:+: "Item not found: abc".toList) := by
  exact ⟨rfl, by decide⟩

/-- C1 (amended): every failure path of the five raising operations
produces `MemoryAPIError`; a non-2xx status wraps the server body text —
except a 404 on the three id-addressed lookups, which produces the
distinguished not-found message — a response-validation failure wraps the
validation message, and any transport fault or other in-flight exception
wraps an operation-specific generic message.  Totality of the embedded
operations over `HttpAttempt` captures that no other exception type
escapes. -/
theorem C1_single_error_type_amended :
    (∀ item s t p, ¬ is2xx s →
      ingest item (.response s t p) = .error ⟨"Failed to ingest item: " ++ t⟩) ∧
    (∀ item s t m, is2xx s →
      ingest item (.response s t (.validationError m)) =
        .error ⟨"Invalid response format: " ++ m⟩) ∧
    (∀ item s t m, is2xx s →
      ingest item (.response s t (.otherError m)) = .error ⟨"Ingestion failed: " ++ m⟩) ∧
    (∀ item m, ingest item (.transportError m) = .error ⟨"Ingestion failed: " ++ m⟩) ∧
    (∀ s t p, ¬ is2xx s →
      retrieveResult (.response s t p) = .error ⟨"Failed to retrieve items: " ++ t⟩) ∧
    (∀ s t m, is2xx s →
      retrieveResult (.response s t (.validationError m)) =
        .error ⟨"Invalid response format: " ++ m⟩) ∧
    (∀ s t m, is2xx s →
      retrieveResult (.response s t (.otherError m)) = .error ⟨"Retrieval failed: " ++ m⟩) ∧
    (∀ m, retrieveResult (.transportError m) = .error ⟨"Retrieval failed: " ++ m⟩) ∧
    (∀ q k f sd ed ct ic er a,
      (retrieve q k f sd ed ct ic er a).result = retrieveResult a) ∧
    (∀ iid s t p, ¬ is2xx s → s ≠ 404 →
      get_item iid (.response s t p) = .error ⟨"Failed to get item: " ++ t⟩) ∧
    (∀ iid t p, get_item iid (.response 404 t p) = .error ⟨"Item not found: " ++ iid⟩) ∧
    (∀ iid s t m, is2xx s →
      get_item iid (.response s t (.validationError m)) =
        .error ⟨"Invalid response format: " ++ m⟩) ∧
    (∀ iid s t m, is2xx s →
      get_item iid (.response s t (.otherError m)) = .error ⟨"Get item failed: " ++ m⟩) ∧
    (∀ iid m, get_item iid (.transportError m) = .error ⟨"Get item failed: " ++ m⟩) ∧
    (∀ iid s t p, ¬ is2xx s → s ≠ 404 →
      relatedResult iid (.response s t p) =
        .error ⟨"Failed to get related items: " ++ t⟩) ∧
    (∀ iid t p, relatedResult iid (.response 404 t p) =
      .error ⟨"Item not found: " ++ iid⟩) ∧
    (∀ iid s t m, is2xx s →
      relatedResult iid (.response s t (.validationError m)) =
        .error ⟨"Invalid response format: " ++ m⟩) ∧
    (∀ iid s t m, is2xx s →
      relatedResult iid (.response s t (.otherError m)) =
        .error ⟨"Get related items failed: " ++ m⟩) ∧
    (∀ iid m, relatedResult iid (.transportError m) =
      .error ⟨"Get related items failed: " ++ m⟩) ∧
    (∀ iid rts a, (get_related_items iid rts a).result = relatedResult iid a) ∧
    (∀ tid s t p, ¬ is2xx s → s ≠ 404 →
      get_task_status tid (.response s t p) =
        .error ⟨"Failed to get task status: " ++ t⟩) ∧
    (∀ tid t p, get_task_status tid (.response 404 t p) =
      .error ⟨"Task not found: " ++ tid⟩) ∧
    (∀ tid s t m, is2xx s →
      get_task_status tid (.response s t (.validationError m)) =
        .error ⟨"Invalid response format: " ++ m⟩) ∧
    (∀ tid s t m, is2xx s →
      get_task_status tid (.response s t (.otherError m)) =
        .error ⟨"Get task status failed: " ++ m⟩) ∧
    (∀ tid m, get_task_status tid (.transportError m) =
      .error ⟨"Get task status failed: " ++ m⟩) := by
  refine ⟨?_, ?_, ?_, ?_, ?_, ?_, ?_, ?_, ?_, ?_, ?_, ?_, ?_, ?_, ?_, ?_, ?_, ?_,
    ?_, ?_, ?_, ?_, ?_, ?_, ?_⟩
  · intro item s t p h
    simp only [ingest]
    rw [if_neg h]
  · intro item s t m h
    simp only [ingest]
    rw [if_pos h]
  · intro item s t m h
    simp only [ingest]
    rw [if_pos h]
  · intro item m
    rfl
  · intro s t p h
    simp only [retrieveResult]
    rw [if_neg h]
  · intro s t m h
    simp only [retrieveResult]
    rw [if_pos h]
  · intro s t m h
    simp only [retrieveResult]
    rw [if_pos h]
  · intro m
    rfl
  · intro q k f sd ed ct ic er a
    rfl
  · intro iid s t p h h404
    simp only [get_item]
    rw [if_neg h, if_neg h404]
  · intro iid t p
    rfl
  · intro iid s t m h
    simp only [get_item]
    rw [if_pos h]
  · intro iid s t m h
    simp only [get_item]
    rw [if_pos h]
  · intro iid m
    rfl
  · intro iid s t p h h404
    simp only [relatedResult]
    rw [if_neg h, if_neg h404]
  · intro iid t p
    rfl
  · intro iid s t m h
    simp only [relatedResult]
    rw [if_pos h]
  · intro iid s t m h
    simp only [relatedResult]
    rw [if_pos h]
  · intro iid m
    rfl
  · intro iid rts a
    rfl
  · intro tid s t p h h404
    simp only [get_task_status]
    rw [if_neg h, if_neg h404]
  · intro tid t p
    rfl
  · intro tid s t m h
    simp only [get_task_status]
    rw [if_pos h]
  · intro tid s t m h
    simp only [get_task_status]
    rw [if_pos h]
  · intro tid m
    rfl

/-- C1 witness: the amended wrapping policy instantiated at concrete
statuses, bodies and messages for each kind of failure. -/
theorem C1_single_error_type_amended_witness :
    ingest rawItem0 (.response 500 "oops" (.ok ingOk)) =
      .error ⟨"Failed to ingest item: " ++ "oops"⟩ ∧
    ingest rawItem0 (.response 200 "body" (.validationError "bad schema")) =
      .error ⟨"Invalid response format: " ++ "bad schema"⟩ ∧
    ingest rawItem0 (.transportError "timeout") =
      .error ⟨"Ingestion failed: " ++ "timeout"⟩ ∧
    retrieveResult (.response 503 "down" (.otherError "x")) =
      .error ⟨"Failed to retrieve items: " ++ "down"⟩ ∧
    get_item "abc" (.response 500 "oops" (.otherError "x")) =
      .error ⟨"Failed to get item: " ++ "oops"⟩ ∧
    get_task_status "t1" (.response 200 "body" (.otherError "decode")) =
      .error ⟨"Get task status failed: " ++ "decode"⟩ :=
  ⟨C1_single_error_type_amended.1 rawItem0 500 "oops" (.ok ingOk) (by decide),
   C1_single_error_type_amended.2.1 rawItem0 200 "body" "bad schema" (by decide),
   C1_single_error_type_amended.2.2.2.1 rawItem0 "timeout",
   C1_single_error_type_amended.2.2.2.2.1 503 "down" (.otherError "x") (by decide),
   C1_single_error_type_amended.2.2.2.2.2.2.2.2.2.1 "abc" 500 "oops" (.otherError "x")
     (by decide) (by decide),
   C1_single_error_type_amended.2.2.2.2.2.2.2.2.2.2.2.2.2.2.2.2.2.2.2.2.2.2.2.1
     "t1" 200 "body" "decode" (by decide)⟩

/-- C4: every `retrieve` call sends `query`, `top_k`, `include_context`
and `enable_reranking`; `filters` (JSON-serialized) only for a non-empty
mapping, `start_date`/`end_date` (ISO-8601) only when supplied,
`content_types` (comma-joined) only for a non-empty list; each optional
parameter is otherwise omitted entirely. -/
theorem C4_retrieve_query_params (q : String) (k : Int)
    (f : Option (List (String × String))) (sd ed : Option Datetime)
    (ct : Option (List String)) (ic er : Bool) :
    let ps := retrieveParams q k f sd ed ct ic er
    ps.lookup "query" = some (.str q) ∧
    ps.lookup "top_k" = some (.int k) ∧
    ps.lookup "include_context" = some (.bool ic) ∧
    ps.lookup "enable_reranking" = some (.bool er) ∧
    ps.lookup "filters" = (match f with
      | some (kv :: kvs) => some (.str (jsonDumpsStrDict (kv :: kvs)))
      | _ => none) ∧
    ps.lookup "start_date" = (sd.map fun d => .str d.isoformat) ∧
    ps.lookup "end_date" = (ed.map fun d => .str d.isoformat) ∧
    ps.lookup "content_types" = (match ct with
      | some (c :: cs) => some (.str (String.intercalate "," (c :: cs)))
      | _ => none) := by
  rcases f with _ | ⟨_ | ⟨kv, kvs⟩⟩ <;> rcases sd with _ | d1 <;> rcases ed with _ | d2 <;>
    rcases ct with _ | ⟨_ | ⟨c, cs⟩⟩ <;>
    exact ⟨rfl, rfl, rfl, rfl, rfl, rfl, rfl, rfl⟩

/-- C10: for a reply, the memory item is built entirely from the
replied-to message (same construction as if that message had arrived on
its own): its text/caption, its date as `event_timestamp`, its metadata;
and every constructed item has `reply_to_id = None`. -/
theorem C10_reply_sourcing (c r : MsgContent) (st : StoreOutcome) :
    create_msg_memoryitem ⟨c, some r⟩ st = create_msg_memoryitem ⟨r, none⟩ st ∧
    (∃ it, create_msg_memoryitem ⟨c, some r⟩ st = some it ∧
      it.event_timestamp = r.date ∧ it.meta = some (extract_message_meta r) ∧
      it.text_content = pyOrOpt r.text r.caption ∧
      it.content_type = (mediaSelect r).content_type ∧
      it.reply_to_id = none) ∧
    (∀ msg store, ∃ it, create_msg_memoryitem msg store = some it ∧
      it.reply_to_id = none) := by
  refine ⟨rfl, ⟨_, rfl, rfl, rfl, rfl, rfl, rfl⟩, ?_⟩
  intro msg store
  exact ⟨_, rfl, rfl⟩

/-- C5: the code violates the claim.  A `/remember` message with no
attachment, no text and no reply is NOT aborted: `_create_msg_memoryitem`
has no `return None` path, so the handler's "No content to remember"
branch is dead and an empty text item is ingested. -/
theorem C5_empty_message_still_ingested :
    (∀ st : StoreOutcome, ∃ it,
      handle_remember_cmd noContentMsg st = RememberAction.ingested it ∧
      it.text_content = none ∧ it.data_uri = none) ∧
    handle_remember_cmd noContentMsg (StoreOutcome.ok "unused") =
      RememberAction.ingested
        { content_type := "text", text_content := none, data_uri := none,
          event_timestamp := d0,
          meta := some [("source", .str "telegram"), ("message_id", .int 1),
                        ("chat_id", .int 10), ("chat_type", .str "private")],
          reply_to_id := none } := by
  exact ⟨fun st => ⟨_, rfl, rfl, rfl⟩, rfl⟩

/-- C6: on storage failure the capture is preserved (an item is still
constructed, with a synthetic `telegram_...` reference), but the code
violates the claimed reference format: for a voice note the selected
attachment's media type is `audio`, while the loop variable `media_type`
has been overwritten to the last mapping entry's type `image`, so the
fallback URI is `telegram_image:v1`, not `telegram_audio:v1`. -/
theorem C6_storage_failure_fallback :
    ∃ it, create_msg_memoryitem voiceOnlyMsg (StoreOutcome.failure "io error") = some it ∧
      it.content_type = "audio" ∧
      it.data_uri = some "telegram_image:v1" ∧
      it.data_uri ≠ some "telegram_audio:v1" := by
  refine ⟨_, rfl, rfl, by decide, by decide⟩

/-- C7: for a message carrying more than one attachment attribute, the
media-selection loop iterates the fixed ordered mapping list and
overwrites its selection on each match, so the constructed item's
`content_type`, media object and file name come from the last-matching
attachment kind. -/
theorem C7_last_match_wins (m : MsgContent) (k k1 k2 : AttachKind) (o : TgFile)
    (h1 : (attachOf k1 m).isSome = true) (h2 : (attachOf k2 m).isSome = true)
    (hne : k1 ≠ k2)
    (hlast : (mapping.filter (fun k => (attachOf k m).isSome)).getLast? = some k)
    (ho : attachOf k m = some o) :
    (mediaSelect m).content_type = mediaTypeOf k ∧
    (mediaSelect m).media_obj = some o ∧
    (mediaSelect m).file_name = some (filenameOf k o) := by
  have h := foldl_loopStep_char m mapping initLoopState
  rw [hlast] at h
  obtain ⟨ha, hb, hc⟩ := h
  rw [ho] at hb hc
  exact ⟨ha, hb, hc⟩

/-- C7 witness: a message with both a photo and a voice note is selected
as the voice note (the later mapping entry), not the photo. -/
theorem C7_last_match_wins_witness :
    (mediaSelect photoVoiceContent).content_type = mediaTypeOf AttachKind.voice ∧
    (mediaSelect photoVoiceContent).media_obj = some voiceFile ∧
    (mediaSelect photoVoiceContent).file_name =
      some (filenameOf AttachKind.voice voiceFile) :=
  C7_last_match_wins photoVoiceContent .voice .photo .voice voiceFile
    (by decide) (by decide) (by decide) (by decide) (by decide)

/-- C8: search-result formatting truncates body text longer than 300
characters to 297 characters plus `"..."` (total exactly 300) and leaves
shorter text unchanged; the score is rendered with exactly two digits
after the decimal point; every line of the content is quoted with a `>`
marker; entries are enumerated from rank 1 and each entry renders its
1-based rank. -/
theorem C8_search_result_rendering :
    (∀ s : String,
      (300 < pyLen s →
        truncateContent s = pyTake 297 s ++ "..." ∧ pyLen (truncateContent s) = 300) ∧
      (pyLen s ≤ 300 → truncateContent s = s)) ∧
    (∀ q : ℚ, ∃ ip : String, ∃ m : Nat, m < 100 ∧
      format2f q = ip ++ "." ++ pad2 m ∧ (pad2 m).toList.length = 2 ∧
      (pad2 m).toList.all Char.isDigit = true) ∧
    (∀ l : List Char, splitNl (quoteL l) = (splitNl l).map (fun x => '>' :: x)) ∧
    (∀ i item sc, fmt_result_entry i ⟨item, some sc⟩ =
      some ("*" ++ toString i ++ "\\. \\(Score: " ++
        escapeMarkdownV2 (format2f sc) ++ "\\)*\n" ++
        quoteBlock (escapeMarkdownV2 (truncateContent (displayContent item))) ++
        "\n\n🕒 " ++ escapeMarkdownV2 item.event_timestamp.strftimeShort ++
        "\n🆔 `" ++ item.id ++ "`\n\n")) ∧
    (∀ resp q entries,
      (resp.results.enumFrom 1).mapM (fun p => fmt_result_entry p.1 p.2) = some entries →
      fmt_search_results resp q = some (fmtSearchHeader q ++ String.join entries)) := by
  refine ⟨?_, ?_, splitNl_quoteL, ?_, ?_⟩
  · intro s
    constructor
    · intro h
      have he : truncateContent s = pyTake 297 s ++ "..." := by
        rw [truncateContent, if_pos h]
      refine ⟨he, ?_⟩
      rw [he, pyLen_append, pyLen_pyTake 297 s (by omega)]
      rfl
    · intro h
      rw [truncateContent, if_neg (by omega)]
  · intro q
    refine ⟨(if roundHalfEven (q * 100) < 0 then "-" else "") ++
        toString ((roundHalfEven (q * 100)).natAbs / 100),
      (roundHalfEven (q * 100)).natAbs % 100, Nat.mod_lt _ (by norm_num), rfl,
      (pad2_two_digits _ (Nat.mod_lt _ (by norm_num))).1,
      (pad2_two_digits _ (Nat.mod_lt _ (by norm_num))).2⟩
  · intro i item sc
    rfl
  · intro resp q entries h
    simp only [fmt_search_results, h, Option.bind_eq_bind, Option.bind_some]
    rfl

/-- C8 witness: the truncation branches at a 301-character body and a
short body, and the empty-results rendering. -/
theorem C8_search_result_rendering_witness :
    (truncateContent longBody = pyTake 297 longBody ++ "..." ∧
      pyLen (truncateContent longBody) = 300) ∧
    truncateContent "hi" = "hi" ∧
    fmt_search_results ⟨"q", []⟩ "hello" =
      some (fmtSearchHeader "hello" ++ String.join []) :=
  ⟨(C8_search_result_rendering.1 longBody).1 (by decide),
   (C8_search_result_rendering.1 "hi").2 (by decide),
   C8_search_result_rendering.2.2.2.2 ⟨"q", []⟩ "hello" [] rfl⟩
